import Mathlib

/-!
Shallow embedding of `src/src/components/Interactive3DWidget.jsx`
(repository Ravipatel6040/interactive-3d-widget).

The component is a single React function component.  Its mutable state is:
  - `cube.rotation.x`, `cube.rotation.y`   (three.js mesh rotation, lines 74, 106-107, 124-125, 155)
  - `isDragging`, `previousPointerPosition` (closure variables, lines 89-90)
  - `rotationSpeedRef.current`              (line 21, default 0.01)
  - `isLoading`                             (React state, line 23, default true)
  - camera aspect / projection, renderer size (lines 41-51, 145-150)

Numbers are JavaScript doubles in the source; we embed them as exact
rationals `ℚ`, the standard idealisation for specs written in decimal
(0.01, 0.1, 0.001, 500ms).
-/

/-- The widget's mutable state, mirroring the refs and closure variables of
`Interactive3DWidget`.  `camAspect`, `projectionUpdates`, `rendererW`,
`rendererH` track the camera and renderer fields touched by `onResize`. -/
structure WidgetState where
  rotX : ℚ
  rotY : ℚ
  isDragging : Bool
  prevX : ℚ
  prevY : ℚ
  rotationSpeed : ℚ
  isLoading : Bool
  camAspect : ℚ
  projectionUpdates : ℕ
  rendererW : ℚ
  rendererH : ℚ
  deriving Repr, DecidableEq

/-- State right after the widget mounts with the scene built (lines 21-90):
`rotationSpeedRef.current = 0.01`, `isLoading = true`, `isDragging = false`,
`previousPointerPosition = {x: 0, y: 0}`, cube rotation fresh from
`new THREE.Mesh` (0,0), camera aspect `w/h` from the container (line 43),
renderer sized to the container (line 51). -/
def mountState (w h : ℚ) : WidgetState :=
  { rotX := 0, rotY := 0, isDragging := false, prevX := 0, prevY := 0,
    rotationSpeed := 1/100, isLoading := true,
    camAspect := w / h, projectionUpdates := 0, rendererW := w, rendererH := h }

/-- `onMouseDown` (lines 93-96): start dragging, record pointer position. -/
def onMouseDown (x y : ℚ) (s : WidgetState) : WidgetState :=
  { s with isDragging := true, prevX := x, prevY := y }

/-- `onMouseUp` (lines 97-99), also used for `mouseleave` (line 136). -/
def onMouseUp (s : WidgetState) : WidgetState :=
  { s with isDragging := false }

/-- `onMouseMove` (lines 100-109): while dragging, rotate the cube by the
pointer delta scaled by 0.01 and update the stored previous position. -/
def onMouseMove (x y : ℚ) (s : WidgetState) : WidgetState :=
  if !s.isDragging then s
  else
    { s with
      rotY := s.rotY + (x - s.prevX) * (1/100),
      rotX := s.rotX + (y - s.prevY) * (1/100),
      prevX := x, prevY := y }

/-- `onTouchStart` (lines 112-118): only a single-contact event
(`e.touches.length === 1`) starts a drag, using `touches[0]`. -/
def onTouchStart (ts : List (ℚ × ℚ)) (s : WidgetState) : WidgetState :=
  match ts with
  | [t] => { s with isDragging := true, prevX := t.1, prevY := t.2 }
  | _ => s

/-- `onTouchMove` (lines 119-127): returns unless dragging with exactly one
contact; otherwise rotates like `onMouseMove`. -/
def onTouchMove (ts : List (ℚ × ℚ)) (s : WidgetState) : WidgetState :=
  if !s.isDragging then s
  else
    match ts with
    | [t] =>
      { s with
        rotY := s.rotY + (t.1 - s.prevX) * (1/100),
        rotX := s.rotX + (t.2 - s.prevY) * (1/100),
        prevX := t.1, prevY := t.2 }
    | _ => s

/-- `onTouchEnd` (lines 128-130), also used for `touchcancel` (line 142). -/
def onTouchEnd (s : WidgetState) : WidgetState :=
  { s with isDragging := false }

/-- `onResize` (lines 145-150): camera aspect becomes
`container.clientWidth / container.clientHeight`, the projection matrix is
updated, and the renderer is resized to the container.  (The captured
`container` node is non-null for a mounted widget, so the `if (!container)`
guard at line 146 does not fire.) -/
def onResize (w h : ℚ) (s : WidgetState) : WidgetState :=
  { s with
    camAspect := w / h,
    projectionUpdates := s.projectionUpdates + 1,
    rendererW := w, rendererH := h }

/-- Body of `animate` (lines 154-158): each frame adds the current value of
`rotationSpeedRef` to the cube's Y rotation, then renders (no state effect). -/
def animate (s : WidgetState) : WidgetState :=
  { s with rotY := s.rotY + s.rotationSpeed }

/-- The range input's emitted value (lines 244-252): the element has
`min="0"` and `max="0.1"`, so the value the browser delivers to `onChange`
is confined to that interval. -/
def sliderValue (raw : ℚ) : ℚ :=
  max 0 (min (1/10) raw)

/-- `onSpeedChange` (lines 191-194): stores the slider's value in
`rotationSpeedRef.current` (the `forceUpdate` re-render has no effect on
the modelled state). -/
def onSpeedChange (raw : ℚ) (s : WidgetState) : WidgetState :=
  { s with rotationSpeed := sliderValue raw }

/-! ### Drag sequences (claim C1) -/

/-- Run a list of mouse-move events through `onMouseMove`. -/
def runMoves (s : WidgetState) (ms : List (ℚ × ℚ)) : WidgetState :=
  ms.foldl (fun t m => onMouseMove m.1 m.2 t) s

/-- A full drag gesture: press at `p`, the listed moves, then release. -/
def dragSequence (s : WidgetState) (p : ℚ × ℚ) (ms : List (ℚ × ℚ)) :
    WidgetState :=
  onMouseUp (runMoves (onMouseDown p.1 p.2 s) ms)

/-- Sum over the move events of (current X minus previous X), where the
previous position of the first move is `p`. -/
def sumDeltaX (p : ℚ × ℚ) : List (ℚ × ℚ) → ℚ
  | [] => 0
  | m :: ms => (m.1 - p.1) + sumDeltaX m ms

/-- Sum over the move events of (current Y minus previous Y). -/
def sumDeltaY (p : ℚ × ℚ) : List (ℚ × ℚ) → ℚ
  | [] => 0
  | m :: ms => (m.2 - p.2) + sumDeltaY m ms

lemma onMouseMove_apply (x y : ℚ) (s : WidgetState) (h : s.isDragging = true) :
    (onMouseMove x y s).rotY = s.rotY + (x - s.prevX) * (1/100) ∧
    (onMouseMove x y s).rotX = s.rotX + (y - s.prevY) * (1/100) ∧
    (onMouseMove x y s).prevX = x ∧ (onMouseMove x y s).prevY = y ∧
    (onMouseMove x y s).isDragging = true := by
  simp [onMouseMove, h]

lemma runMoves_dragging (ms : List (ℚ × ℚ)) :
    ∀ s : WidgetState, s.isDragging = true →
      (runMoves s ms).rotY = s.rotY + sumDeltaX (s.prevX, s.prevY) ms * (1/100) ∧
      (runMoves s ms).rotX = s.rotX + sumDeltaY (s.prevX, s.prevY) ms * (1/100) ∧
      (runMoves s ms).isDragging = true := by
  induction ms with
  | nil =>
    intro s h
    simp [runMoves, sumDeltaX, sumDeltaY, h]
  | cons m ms ih =>
    intro s h
    obtain ⟨hmy, hmx, hpx, hpy, hmd⟩ := onMouseMove_apply m.1 m.2 s h
    obtain ⟨hy, hx, hd⟩ := ih (onMouseMove m.1 m.2 s) hmd
    have hrun : runMoves s (m :: ms) = runMoves (onMouseMove m.1 m.2 s) ms := rfl
    refine ⟨?_, ?_, ?_⟩
    · rw [hrun, hy, hmy, hpx, hpy]
      simp only [sumDeltaX, Prod.mk.eta]
      ring
    · rw [hrun, hx, hmx, hpx, hpy]
      simp only [sumDeltaY, Prod.mk.eta]
      ring
    · rw [hrun]; exact hd

/-- C1: for every drag sequence (press, moves, release), the total change to
the cube's Y rotation equals the sum of the X deltas times 0.01 and the
total change to the X rotation equals the sum of the Y deltas times 0.01;
in particular a press at (100,100), one move to (150,130) and a release
adds 0.5 to `rotation.y` and 0.3 to `rotation.x`. -/
theorem drag_sequence_rotation (s : WidgetState) (p : ℚ × ℚ)
    (ms : List (ℚ × ℚ)) :
    (dragSequence s p ms).rotY = s.rotY + sumDeltaX p ms * (1/100) ∧
    (dragSequence s p ms).rotX = s.rotX + sumDeltaY p ms * (1/100) ∧
    (dragSequence s (100, 100) [(150, 130)]).rotY = s.rotY + 1/2 ∧
    (dragSequence s (100, 100) [(150, 130)]).rotX = s.rotX + 3/10 := by
  have key : ∀ q : ℚ × ℚ, ∀ l : List (ℚ × ℚ),
      (dragSequence s q l).rotY = s.rotY + sumDeltaX q l * (1/100) ∧
      (dragSequence s q l).rotX = s.rotX + sumDeltaY q l * (1/100) := by
    intro q l
    have hd : (onMouseDown q.1 q.2 s).isDragging = true := by
      simp [onMouseDown]
    obtain ⟨hy, hx, _⟩ := runMoves_dragging l (onMouseDown q.1 q.2 s) hd
    constructor
    · show (onMouseUp (runMoves (onMouseDown q.1 q.2 s) l)).rotY = _
      simp only [onMouseUp]
      rw [hy]; simp [onMouseDown]
    · show (onMouseUp (runMoves (onMouseDown q.1 q.2 s) l)).rotX = _
      simp only [onMouseUp]
      rw [hx]; simp [onMouseDown]
  obtain ⟨h1, h2⟩ := key p ms
  obtain ⟨h3, h4⟩ := key (100, 100) [(150, 130)]
  refine ⟨h1, h2, ?_, ?_⟩
  · rw [h3]; norm_num [sumDeltaX]
  · rw [h4]; norm_num [sumDeltaY]

/-! ### Multi-touch (claim C3) -/

/-- C3: a touch event with two or more simultaneous contacts never changes
the drag flag (in particular it never moves idle to dragging) and never
changes the cube's rotation, for both touch-start and touch-move. -/
theorem multi_touch_ignored (s : WidgetState) (ts : List (ℚ × ℚ))
    (h : 2 ≤ ts.length) :
    (onTouchStart ts s).isDragging = s.isDragging ∧
    (onTouchStart ts s).rotX = s.rotX ∧
    (onTouchStart ts s).rotY = s.rotY ∧
    (onTouchMove ts s).rotX = s.rotX ∧
    (onTouchMove ts s).rotY = s.rotY := by
  obtain - | ⟨a, - | ⟨b, rest⟩⟩ := ts
  · simp at h
  · simp at h
  · have h1 : onTouchStart (a :: b :: rest) s = s := rfl
    have h2 : onTouchMove (a :: b :: rest) s = s := by
      unfold onTouchMove
      cases s.isDragging <;> simp
    rw [h1, h2]
    exact ⟨rfl, rfl, rfl, rfl, rfl⟩

/-- Witness for C3 at a concrete two-contact event. -/
theorem multi_touch_ignored_witness :
    2 ≤ ([((10 : ℚ), (20 : ℚ)), (30, 40)] : List (ℚ × ℚ)).length ∧
    (onTouchStart [((10 : ℚ), 20), (30, 40)] (mountState 600 400)).isDragging =
      (mountState 600 400).isDragging :=
  ⟨by decide, (multi_touch_ignored (mountState 600 400) [(10, 20), (30, 40)]
      (by decide)).1⟩

/-! ### Rotation speed (claim C4) -/

/-- C4: after any speed-change event the stored speed lies in [0, 0.1];
when the stored speed is 0 an animation frame leaves the Y rotation
unchanged; and drag-driven rotation increments do not depend on the
stored speed. -/
theorem rotation_speed_invariants (s : WidgetState) (raw v x y : ℚ) :
    0 ≤ (onSpeedChange raw s).rotationSpeed ∧
    (onSpeedChange raw s).rotationSpeed ≤ 1/10 ∧
    (s.rotationSpeed = 0 → (animate s).rotY = s.rotY) ∧
    (onMouseMove x y { s with rotationSpeed := v }).rotY =
      (onMouseMove x y s).rotY ∧
    (onMouseMove x y { s with rotationSpeed := v }).rotX =
      (onMouseMove x y s).rotX := by
  refine ⟨le_max_left 0 _, max_le (by norm_num) (min_le_left _ _), ?_, ?_, ?_⟩
  · intro h0
    simp [animate, h0]
  · cases hd : s.isDragging <;> simp [onMouseMove, hd]
  · cases hd : s.isDragging <;> simp [onMouseMove, hd]

/-- Witness for C4: a state whose stored speed is 0 (reached through a
speed-change event) really leaves the Y rotation unchanged on a frame. -/
theorem rotation_speed_invariants_witness :
    (onSpeedChange 0 (mountState 600 400)).rotationSpeed = 0 ∧
    (0 ≤ (onSpeedChange (1/2) (onSpeedChange 0 (mountState 600 400))).rotationSpeed ∧
     (onSpeedChange (1/2) (onSpeedChange 0 (mountState 600 400))).rotationSpeed ≤ 1/10 ∧
     ((onSpeedChange 0 (mountState 600 400)).rotationSpeed = 0 →
       (animate (onSpeedChange 0 (mountState 600 400))).rotY =
         (onSpeedChange 0 (mountState 600 400)).rotY) ∧
     (onMouseMove 5 7 { onSpeedChange 0 (mountState 600 400) with rotationSpeed := 3/100 }).rotY =
       (onMouseMove 5 7 (onSpeedChange 0 (mountState 600 400))).rotY ∧
     (onMouseMove 5 7 { onSpeedChange 0 (mountState 600 400) with rotationSpeed := 3/100 }).rotX =
       (onMouseMove 5 7 (onSpeedChange 0 (mountState 600 400))).rotX) :=
  ⟨by norm_num [onSpeedChange, sliderValue, mountState],
   rotation_speed_invariants (onSpeedChange 0 (mountState 600 400)) (1/2) (3/100) 5 7⟩

/-! ### Auto-rotation over frames (claim C6) -/

/-- `n` animation frames in a row with no intervening events. -/
def frames (n : ℕ) (s : WidgetState) : WidgetState :=
  animate^[n] s

lemma frames_rotY (n : ℕ) :
    ∀ s : WidgetState, (frames n s).rotY = s.rotY + n * s.rotationSpeed ∧
      (frames n s).rotationSpeed = s.rotationSpeed := by
  induction n with
  | zero => intro s; simp [frames]
  | succ n ih =>
    intro s
    have hstep : frames (n + 1) s = frames n (animate s) := by
      simp [frames, Function.iterate_succ_apply]
    obtain ⟨hy, hv⟩ := ih (animate s)
    rw [hstep, hy, hv]
    constructor
    · show s.rotY + s.rotationSpeed + n * s.rotationSpeed = _
      push_cast
      ring
    · rfl

/-- C6: with the stored speed at 0.01, 100 frames with no drag events add
exactly 1 to the cube's Y rotation. -/
theorem hundred_frames_add_one (s : WidgetState)
    (h : s.rotationSpeed = 1/100) :
    (frames 100 s).rotY = s.rotY + 1 := by
  obtain ⟨hy, -⟩ := frames_rotY 100 s
  rw [hy, h]
  norm_num

/-- Witness for C6 at the freshly mounted state, whose default speed is
0.01. -/
theorem hundred_frames_add_one_witness :
    (mountState 600 400).rotationSpeed = 1/100 ∧
    (frames 100 (mountState 600 400)).rotY = (mountState 600 400).rotY + 1 :=
  ⟨rfl, hundred_frames_add_one (mountState 600 400) rfl⟩

/-! ### Resize (claim C8) -/

/-- C8: after a resize event the camera aspect equals container width over
container height, the projection matrix is updated, and the renderer is
resized to the container's dimensions. -/
theorem resize_updates_camera (s : WidgetState) (w h : ℚ) :
    (onResize w h s).camAspect = w / h ∧
    (onResize w h s).projectionUpdates = s.projectionUpdates + 1 ∧
    (onResize w h s).rendererW = w ∧
    (onResize w h s).rendererH = h :=
  ⟨rfl, rfl, rfl, rfl⟩

/-! ### Default speed and readout (claim C10) -/

/-- Left-pad a fractional part to three digits. -/
def pad3 (n : ℕ) : String :=
  if n < 10 then "00" ++ toString n
  else if n < 100 then "0" ++ toString n
  else toString n

/-- `Number.prototype.toFixed(3)` for the nonnegative decimal values the
speed slider produces (line 256 of the source): round to the nearest
thousandth and print with exactly three fractional digits. -/
def toFixed3 (q : ℚ) : String :=
  let n : ℤ := round (q * 1000)
  toString (n / 1000) ++ "." ++ pad3 (n % 1000).toNat

/-- The numeric readout (lines 255-257): `rotationSpeedRef.current.toFixed(3)`. -/
def speedReadout (s : WidgetState) : String :=
  toFixed3 s.rotationSpeed

/-- C10: at mount the stored rotation speed is the nonzero default 0.01 and
the readout displays it with three decimal places as "0.010". -/
theorem initial_speed_default (w h : ℚ) :
    (mountState w h).rotationSpeed = 1/100 ∧ ((1 : ℚ)/100 ≠ 0) ∧
    speedReadout (mountState w h) = "0.010" := by
  refine ⟨rfl, by norm_num, ?_⟩
  show toFixed3 (1/100) = "0.010"
  unfold toFixed3
  rw [show ((1 : ℚ)/100 * 1000) = ((10 : ℤ) : ℚ) by norm_num, round_intCast]
  decide

/-! ### Mount, render loop and teardown (claims C2, C5, C7)

The `useEffect` body (lines 27-188) either returns early when the probe
fails (lines 29-32) or builds the scene, registers listeners, and schedules
a 500ms `setTimeout` whose callback flips `isLoading` and runs `animate`
once; `animate` re-schedules itself through `requestAnimationFrame`
(line 157).  The cleanup (lines 167-187) removes the listeners and disposes
the renderer, geometry and material; it contains no `clearTimeout` and no
`cancelAnimationFrame`. -/

/-- Lifecycle state: what the effect created, which callbacks are pending
with the host scheduler, and how many times the `animate` body has run. -/
structure LifecycleState where
  mounted : Bool
  webglSupported : Bool
  isLoading : Bool
  sceneCreated : Bool
  rendererCreated : Bool
  listeners : List String
  timeoutPending : Bool
  framePending : Bool
  framesRun : ℕ
  deriving Repr, DecidableEq

/-- The listener names registered at lines 133-151. -/
def registeredListeners : List String :=
  ["mousedown", "mouseup", "mousemove", "mouseleave",
   "touchstart", "touchmove", "touchend", "touchcancel", "resize"]

/-- Running the effect body at mount with the probe's result.  On a failed
probe the body returns at line 31 before creating anything and before
scheduling the timeout; on success it builds the scene and renderer,
registers all listeners, and schedules the 500ms timeout. -/
def mountEffect (probe : Bool) : LifecycleState :=
  if probe then
    { mounted := true, webglSupported := true, isLoading := true,
      sceneCreated := true, rendererCreated := true,
      listeners := registeredListeners,
      timeoutPending := true, framePending := false, framesRun := 0 }
  else
    { mounted := true, webglSupported := false, isLoading := true,
      sceneCreated := false, rendererCreated := false, listeners := [],
      timeoutPending := false, framePending := false, framesRun := 0 }

/-- Scheduler-level events after mount. -/
inductive LifecycleEvent where
  | timeoutFire
  | frameFire
  | unmount
  deriving Repr, DecidableEq

/-- One scheduler step.  `timeoutFire`: the 500ms timer, if pending, runs
its callback (lines 161-164): `setIsLoading(false)` then one execution of
`animate`, which schedules a frame.  `frameFire`: a pending animation-frame
callback runs `animate` (lines 154-158), which re-schedules itself.
`unmount`: the cleanup (lines 167-187) removes the listeners and disposes
the renderer; it cancels neither the timeout nor the pending frame. -/
def stepLifecycle (e : LifecycleEvent) (s : LifecycleState) : LifecycleState :=
  match e with
  | .timeoutFire =>
    if s.timeoutPending then
      { s with
        timeoutPending := false,
        isLoading := false,
        framePending := true,
        framesRun := s.framesRun + 1 }
    else s
  | .frameFire =>
    if s.framePending then
      { s with framePending := true, framesRun := s.framesRun + 1 }
    else s
  | .unmount =>
    { s with mounted := false, listeners := [], rendererCreated := false }

/-- A run of scheduler events applied in order. -/
def runLifecycle (s : LifecycleState) (es : List LifecycleEvent) :
    LifecycleState :=
  es.foldl (fun t e => stepLifecycle e t) s

/-- The component's return value (lines 197-258): the fallback message and
image when WebGL is unsupported, otherwise the widget with the spinner
overlay shown while loading. -/
inductive View where
  | fallbackView (message : String) (imageSrc : String)
  | widgetView (showSpinner : Bool)
  deriving Repr, DecidableEq

/-- `render` of the component as a function of the two state flags. -/
def render (webglSupported isLoading : Bool) : View :=
  if !webglSupported then
    .fallbackView "Your browser does not support WebGL." "/fallback.png"
  else
    .widgetView isLoading

lemma runLifecycle_probe_failed (es : List LifecycleEvent) :
    ∀ s : LifecycleState,
      s.sceneCreated = false → s.rendererCreated = false →
      s.listeners = [] → s.timeoutPending = false →
      s.framePending = false → s.isLoading = true →
      s.webglSupported = false →
      (runLifecycle s es).sceneCreated = false ∧
      (runLifecycle s es).rendererCreated = false ∧
      (runLifecycle s es).listeners = [] ∧
      (runLifecycle s es).timeoutPending = false ∧
      (runLifecycle s es).framePending = false ∧
      (runLifecycle s es).isLoading = true ∧
      (runLifecycle s es).webglSupported = false ∧
      (runLifecycle s es).framesRun = s.framesRun := by
  induction es with
  | nil =>
    intro s h1 h2 h3 h4 h5 h6 h7
    exact ⟨h1, h2, h3, h4, h5, h6, h7, rfl⟩
  | cons e es ih =>
    intro s h1 h2 h3 h4 h5 h6 h7
    have hrun : runLifecycle s (e :: es) = runLifecycle (stepLifecycle e s) es :=
      rfl
    rw [hrun]
    cases e with
    | timeoutFire =>
      have hs : stepLifecycle .timeoutFire s = s := by
        simp [stepLifecycle, h4]
      rw [hs]
      exact ih s h1 h2 h3 h4 h5 h6 h7
    | frameFire =>
      have hs : stepLifecycle .frameFire s = s := by
        simp [stepLifecycle, h5]
      rw [hs]
      exact ih s h1 h2 h3 h4 h5 h6 h7
    | unmount =>
      exact ih (stepLifecycle .unmount s) h1 rfl rfl h4 h5 h6 h7

/-- C5: when the probe returns false at mount, the effect returns before
creating anything: no scene, no renderer, no listeners, no timeout; and no
scheduler activity ever creates them or runs a frame afterwards, while the
component renders the static fallback message and image. -/
theorem probe_failure_no_setup (es : List LifecycleEvent) :
    (runLifecycle (mountEffect false) es).sceneCreated = false ∧
    (runLifecycle (mountEffect false) es).rendererCreated = false ∧
    (runLifecycle (mountEffect false) es).listeners = [] ∧
    (runLifecycle (mountEffect false) es).timeoutPending = false ∧
    (runLifecycle (mountEffect false) es).framePending = false ∧
    (runLifecycle (mountEffect false) es).framesRun = 0 ∧
    render (mountEffect false).webglSupported (mountEffect false).isLoading =
      .fallbackView "Your browser does not support WebGL." "/fallback.png" := by
  obtain ⟨h1, h2, h3, h4, h5, -, -, h8⟩ :=
    runLifecycle_probe_failed es (mountEffect false) rfl rfl rfl rfl rfl rfl rfl
  exact ⟨h1, h2, h3, h4, h5, h8, rfl⟩

lemma runLifecycle_loading_false (es : List LifecycleEvent) :
    ∀ s : LifecycleState, s.isLoading = false →
      (runLifecycle s es).isLoading = false := by
  induction es with
  | nil => intro s h; exact h
  | cons e es ih =>
    intro s h
    have hrun : runLifecycle s (e :: es) = runLifecycle (stepLifecycle e s) es :=
      rfl
    rw [hrun]
    refine ih (stepLifecycle e s) ?_
    cases e with
    | timeoutFire =>
      by_cases hp : s.timeoutPending = true
      · simp [stepLifecycle, hp]
      · simp only [Bool.not_eq_true] at hp
        simp [stepLifecycle, hp, h]
    | frameFire =>
      by_cases hp : s.framePending = true
      · simp [stepLifecycle, hp, h]
      · simp only [Bool.not_eq_true] at hp
        simp [stepLifecycle, hp, h]
    | unmount => simp [stepLifecycle, h]

lemma runLifecycle_loading_true_no_timeout (es : List LifecycleEvent) :
    ∀ s : LifecycleState, s.isLoading = true →
      LifecycleEvent.timeoutFire ∉ es →
      (runLifecycle s es).isLoading = true := by
  induction es with
  | nil => intro s h _; exact h
  | cons e es ih =>
    intro s h hmem
    have hrun : runLifecycle s (e :: es) = runLifecycle (stepLifecycle e s) es :=
      rfl
    rw [hrun]
    have hmem' : LifecycleEvent.timeoutFire ∉ es := fun hc =>
      hmem (List.mem_cons_of_mem e hc)
    refine ih (stepLifecycle e s) ?_ hmem'
    cases e with
    | timeoutFire => exact absurd (List.mem_cons_self _ _) hmem
    | frameFire =>
      by_cases hp : s.framePending = true
      · simp [stepLifecycle, hp, h]
      · simp only [Bool.not_eq_true] at hp
        simp [stepLifecycle, hp, h]
    | unmount => simp [stepLifecycle, h]

/-- C7 counterexample: with a failed probe the effect returns before
scheduling the 500ms timeout (no timer is pending), and after the delay
period passes -- and any further scheduler activity -- the loading flag is
still true, contradicting "thereafter permanently false ... including the
case where the capability probe fails at mount". -/
theorem loading_flag_probe_fail_cex :
    (mountEffect false).timeoutPending = false ∧
    (runLifecycle (mountEffect false)
      [.timeoutFire, .frameFire, .timeoutFire]).isLoading = true :=
  ⟨rfl, rfl⟩

/-- C7 amended: the loading flag is true from mount until the 500ms timeout
fires and permanently false afterwards, provided the probe succeeded; when
the probe fails the effect returns before scheduling the timeout and the
flag stays true for the widget's whole lifetime. -/
theorem loading_flag_lifecycle (es fs : List LifecycleEvent)
    (hes : LifecycleEvent.timeoutFire ∉ es) :
    (mountEffect true).isLoading = true ∧
    (runLifecycle (mountEffect true) es).isLoading = true ∧
    (runLifecycle (stepLifecycle .timeoutFire (mountEffect true)) fs).isLoading
      = false ∧
    (runLifecycle (mountEffect false) fs).isLoading = true := by
  refine ⟨rfl, ?_, ?_, ?_⟩
  · exact runLifecycle_loading_true_no_timeout es (mountEffect true) rfl hes
  · exact runLifecycle_loading_false fs (stepLifecycle .timeoutFire (mountEffect true)) rfl
  · exact (runLifecycle_probe_failed fs (mountEffect false)
      rfl rfl rfl rfl rfl rfl rfl).2.2.2.2.2.1

/-- Witness for the amended C7 at concrete event lists. -/
theorem loading_flag_lifecycle_witness :
    LifecycleEvent.timeoutFire ∉ [LifecycleEvent.frameFire, .unmount] ∧
    ((mountEffect true).isLoading = true ∧
     (runLifecycle (mountEffect true) [.frameFire, .unmount]).isLoading = true ∧
     (runLifecycle (stepLifecycle .timeoutFire (mountEffect true))
       [.frameFire, .unmount]).isLoading = false ∧
     (runLifecycle (mountEffect false) [.frameFire, .unmount]).isLoading = true) :=
  ⟨by decide,
   loading_flag_lifecycle [.frameFire, .unmount] [.frameFire, .unmount] (by decide)⟩

/-- C2: the render loop indeed cannot run before the 500ms timeout fires
(a frame event at mint is a no-op), but the claim's cessation half fails on
the code: the cleanup cancels neither the timeout nor the pending frame, so
after the unmount cleanup the frame callback is still pending and its next
delivery executes the `animate` body again. -/
theorem frame_callback_after_cleanup :
    (mountEffect true).framesRun = 0 ∧
    stepLifecycle .frameFire (mountEffect true) = mountEffect true ∧
    (stepLifecycle .unmount
      (stepLifecycle .timeoutFire (mountEffect true))).mounted = false ∧
    (stepLifecycle .unmount
      (stepLifecycle .timeoutFire (mountEffect true))).framePending = true ∧
    (stepLifecycle .frameFire (stepLifecycle .unmount
      (stepLifecycle .timeoutFire (mountEffect true)))).framesRun =
      (stepLifecycle .unmount
        (stepLifecycle .timeoutFire (mountEffect true))).framesRun + 1 :=
  ⟨rfl, rfl, rfl, rfl, rfl⟩

/-! ### The capability probe `isWebGLAvailable` (claim C9)

Lines 5-16 of the source.  The host environment is modelled by what the
probe observes: whether `window.WebGLRenderingContext` exists, and what
each of the two `canvas.getContext` calls does — return a truthy context
(`.ok true`), return null (`.ok false`), or throw (`.error`).  Creating
the throwaway canvas may itself throw. -/

/-- The host environment as seen by the probe. -/
structure Host where
  webglMarker : Bool
  createCanvas : Except String Unit
  getContextWebgl : Except String Bool
  getContextExperimental : Except String Bool

/-- The body of the `try` block (lines 7-12): create a canvas, then
evaluate `!!(window.WebGLRenderingContext && (canvas.getContext("webgl")
|| canvas.getContext("experimental-webgl")))` with JavaScript
short-circuiting; exceptions propagate as `.error`. -/
def probeAttempt (h : Host) : Except String Bool :=
  match h.createCanvas with
  | .error e => .error e
  | .ok _ =>
    if h.webglMarker then
      match h.getContextWebgl with
      | .error e => .error e
      | .ok true => .ok true
      | .ok false => h.getContextExperimental
    else
      .ok false

/-- `isWebGLAvailable` (lines 5-16): the `try`/`catch` wrapper returning
false on any thrown exception. -/
def isWebGLAvailable (h : Host) : Bool :=
  match probeAttempt h with
  | .ok b => b
  | .error _ => false

/-- C9: the probe is total — any exception in the attempt yields false
rather than propagating — and it returns true only if the WebGL capability
marker exists on the host and one of the two context requests actually
produced a context. -/
theorem probe_total_and_sound (h : Host) :
    (∀ e : String, probeAttempt h = .error e → isWebGLAvailable h = false) ∧
    (isWebGLAvailable h = true →
      h.webglMarker = true ∧
      (h.getContextWebgl = .ok true ∨ h.getContextExperimental = .ok true)) := by
  constructor
  · intro e he
    simp [isWebGLAvailable, he]
  · intro ht
    unfold isWebGLAvailable probeAttempt at ht
    cases hc : h.createCanvas with
    | error e => rw [hc] at ht; simp at ht
    | ok u =>
      rw [hc] at ht
      cases hm : h.webglMarker with
      | false => rw [hm] at ht; simp at ht
      | true =>
        rw [hm] at ht
        simp only [if_true] at ht
        cases hw : h.getContextWebgl with
        | error e => rw [hw] at ht; simp at ht
        | ok b =>
          cases b with
          | true => exact ⟨rfl, Or.inl rfl⟩
          | false =>
            rw [hw] at ht
            simp only at ht
            cases hx : h.getContextExperimental with
            | error e => rw [hx] at ht; simp at ht
            | ok c =>
              rw [hx] at ht
              simp only at ht
              exact ⟨rfl, Or.inr (by rw [ht])⟩

/-- A host where everything works. -/
def hostAllOk : Host :=
  { webglMarker := true, createCanvas := .ok (),
    getContextWebgl := .ok true, getContextExperimental := .ok false }

/-- A host whose canvas creation throws. -/
def hostThrowing : Host :=
  { webglMarker := true, createCanvas := .error "canvas creation failed",
    getContextWebgl := .ok true, getContextExperimental := .ok false }

/-- Witness for C9: a fully working host is reported available, and a host
that throws during the attempt is reported unavailable rather than
propagating the exception. -/
theorem probe_total_and_sound_witness :
    isWebGLAvailable hostAllOk = true ∧
    hostAllOk.webglMarker = true ∧
    probeAttempt hostThrowing = .error "canvas creation failed" ∧
    isWebGLAvailable hostThrowing = false :=
  ⟨rfl, ((probe_total_and_sound hostAllOk).2 rfl).1, rfl,
   (probe_total_and_sound hostThrowing).1 "canvas creation failed" rfl⟩
